import Mathlib

/-!
Shallow embedding of the game logic in src/main.c of the controc89
repository: the projectile pool (addBullet / removeBullet), per-tick
input sampling (processEvents), the physics / collision update
(updateLogic, split here into physicsMan, updateBullets and enemyAnim
exactly along the blocks of the C function), and the render command
stream (doRender).  The machine floats of the source only ever hold
dyadic rationals of small magnitude in the behaviours specified
(integers and halves, well inside the range where IEEE single precision
arithmetic is exact), so positions and velocities are embedded as ℚ.
-/

namespace Controc

/-- A projectile: struct Bullet with float x, y, dx from main.c. -/
structure Bullet where
  x : ℚ
  y : ℚ
  dx : ℚ
deriving DecidableEq

/-- Actor record: struct Man from main.c.  The fields short life and
char *name are declared in the C struct but never read or written by
any function, and SDL_Texture *sheetTexture is an externally owned
handle only handed to the renderer, so those three are omitted.  The
int flags walking, facingLeft, shooting, visible, alive only ever hold
0 or 1 and are embedded as Bool. -/
structure ManSt where
  x : ℚ
  y : ℚ
  dy : ℚ
  currentSprite : ℕ
  walking : Bool
  facingLeft : Bool
  shooting : Bool
  visible : Bool
  alive : Bool
deriving DecidableEq

/-- The slot table Bullet *bullets[MAX_BULLETS]: a slot is none exactly
when the C pointer is NULL. -/
abbrev Pool := List (Option Bullet)

def MAX_BULLETS : ℕ := 1000

/-- All slots NULL, as the C global array starts out. -/
def initPool : Pool := List.replicate MAX_BULLETS none

/-- addBullet from main.c: scan the slots in index order and fill the
first NULL slot with the new projectile; when no slot is free the call
falls through and nothing changes. -/
def addBullet : Pool → ℚ → ℚ → ℚ → Pool
  | [], _, _, _ => []
  | none :: rest, x, y, dx => some ⟨x, y, dx⟩ :: rest
  | some b :: rest, x, y, dx => some b :: addBullet rest x y dx

/-- removeBullet from main.c: if slot i holds a projectile, free it and
set the slot to NULL; an empty slot is left alone. -/
def removeBullet (p : Pool) (i : ℕ) : Pool :=
  match p[i]? with
  | some (some _) => p.set i none
  | _ => p

/-- Number of occupied slots. -/
def liveCount (p : Pool) : ℕ := p.countP fun s => s.isSome

/-- The continuous keyboard state sampled through SDL_GetKeyboardState,
restricted to the five scancodes the program reads. -/
structure Keys where
  left : Bool
  right : Bool
  up : Bool
  down : Bool
  space : Bool
deriving DecidableEq

/-- processEvents from main.c, minus the discrete event queue drain
(that loop only computes the done flag returned to the main loop and
destroys the window; no claim concerns it).  It mutates the player and
possibly spawns a projectile; t is the value of globalTime while the
function runs.  The down key branch of the source is an empty no-op. -/
def processEvents (k : Keys) (m : ManSt) (t : ℕ) (p : Pool) : ManSt × Pool :=
  let m1 :=
    if m.shooting = false then
      if k.left = true then
        { m with x := m.x - 3, walking := true, facingLeft := true,
                 currentSprite :=
                   if t % 6 = 0 then (m.currentSprite + 1) % 4 else m.currentSprite }
      else if k.right = true then
        { m with x := m.x + 3, walking := true, facingLeft := false,
                 currentSprite :=
                   if t % 6 = 0 then (m.currentSprite + 1) % 4 else m.currentSprite }
      else
        { m with walking := false, currentSprite := 4 }
    else m
  let mp :=
    if m1.walking = false then
      if k.space = true then
        ({ m1 with
             currentSprite :=
               if t % 6 = 0 then (if m1.currentSprite = 4 then 5 else 4)
               else m1.currentSprite,
             shooting := true },
         if t % 6 = 0 then
           if m1.facingLeft = false then addBullet p (m1.x + 35) (m1.y + 20) 3
           else addBullet p (m1.x + 5) (m1.y + 20) (-3)
         else p)
      else ({ m1 with currentSprite := 4, shooting := false }, p)
    else (m1, p)
  let m2 := if k.up = true ∧ mp.1.dy = 0 then { mp.1 with dy := -8 } else mp.1
  (m2, mp.2)

/-- The player physics block at the top of updateLogic: integrate dy
into y, add the gravity term 0.5, then clamp to the ground at y = 60
and zero the velocity. -/
def physicsMan (m : ManSt) : ManSt :=
  if m.y + m.dy > 60 then { m with y := 60, dy := 0 }
  else { m with y := m.y + m.dy, dy := m.dy + 1/2 }

/-- The collision test of updateLogic: the projectile point strictly
inside the enemy's 40 by 50 box. -/
def hitsEnemy (e : ManSt) (x y : ℚ) : Prop :=
  x > e.x ∧ x < e.x + 40 ∧ y > e.y ∧ y < e.y + 50

instance (e : ManSt) (x y : ℚ) : Decidable (hitsEnemy e x y) :=
  inferInstanceAs (Decidable (x > e.x ∧ x < e.x + 40 ∧ y > e.y ∧ y < e.y + 50))

/-- The projectile loop of updateLogic, walking the slots in index
order: advance x by dx, kill the enemy on overlap, free the slot when
x leaves the plus or minus 1000 travel bound. -/
def updateBullets (e : ManSt) : Pool → ManSt × Pool
  | [] => (e, [])
  | none :: rest =>
      let r := updateBullets e rest
      (r.1, none :: r.2)
  | some b :: rest =>
      let e2 := if hitsEnemy e (b.x + b.dx) b.y then { e with alive := false } else e
      let r := updateBullets e2 rest
      (r.1,
        (if b.x + b.dx < -1000 ∨ b.x + b.dx > 1000 then none
         else some { b with x := b.x + b.dx }) :: r.2)

/-- The effect of one updateLogic pass on one slot.  The enemy plays no
role in it: the collision test only ever writes the enemy. -/
def stepSlot : Option Bullet → Option Bullet
  | none => none
  | some b =>
      if b.x + b.dx < -1000 ∨ b.x + b.dx > 1000 then none
      else some { b with x := b.x + b.dx }

/-- The enemy death animation block at the end of updateLogic. -/
def enemyAnim (t : ℕ) (e : ManSt) : ManSt :=
  if e.alive = false ∧ t % 6 = 0 then
    if e.currentSprite < 6 then { e with currentSprite := 6 }
    else
      if e.currentSprite + 1 > 7 then { e with visible := false, currentSprite := 7 }
      else { e with currentSprite := e.currentSprite + 1 }
  else e

/-- The mutable program state one loop iteration threads through: the
player, the enemy, the bullet pool, and globalTime. -/
structure World where
  man : ManSt
  enemy : ManSt
  pool : Pool
  time : ℕ

/-- updateLogic from main.c: player physics, the projectile loop, the
enemy death animation, then globalTime++. -/
def updLogic (w : World) : World :=
  { man := physicsMan w.man,
    enemy := enemyAnim w.time (updateBullets w.enemy w.pool).1,
    pool := (updateBullets w.enemy w.pool).2,
    time := w.time + 1 }

/-- One iteration of the main loop as far as state goes: processEvents
then updateLogic (doRender only reads the state, SDL_Delay only
waits). -/
def tick (k : Keys) (w : World) : World :=
  updLogic
    { man := (processEvents k w.man w.time w.pool).1,
      enemy := w.enemy,
      pool := (processEvents k w.man w.time w.pool).2,
      time := w.time }

/-- Running the loop under a finite key script, one tick per entry. -/
def runKeys : List Keys → World → World
  | [], w => w
  | k :: ks, w => runKeys ks (tick k w)

/-- Texture handles the renderer draws with. -/
inductive Tex
  | playerSheet
  | enemySheet
deriving DecidableEq

/-- One renderer call issued by doRender. -/
inductive RCmd
  | setColor (r g b a : ℕ)
  | clear
  | copyBG
  | blit (tex : Tex) (srcX srcY srcW srcH dstX dstY dstW dstH : ℤ) (flip : Bool)
  | copyBullet (dstX dstY dstW dstH : ℤ)
  | present
deriving DecidableEq

/-- The C float to int cast used for destination rectangles (truncation
toward zero; every coordinate the claims touch is a nonnegative
integer, where all integer division conventions agree). -/
def cint (q : ℚ) : ℤ := q.num / (q.den : ℤ)

/-- doRender from main.c as the ordered list of renderer calls it
issues.  The player blit selects its source rectangle at
40 * currentSprite while the enemy blit computes 40 * 40 *
currentSprite, exactly as the two code paths are written. -/
def doRender (m e : ManSt) (p : Pool) : List RCmd :=
  [RCmd.setColor 0 0 255 255, RCmd.clear, RCmd.setColor 255 255 255 255, RCmd.copyBG]
  ++ (if m.visible = true then
        [RCmd.blit Tex.playerSheet (40 * (m.currentSprite : ℤ)) 0 40 50
          (cint m.x) (cint m.y) 40 50 m.facingLeft]
      else [])
  ++ (if e.visible = true then
        [RCmd.blit Tex.enemySheet (40 * 40 * (e.currentSprite : ℤ)) 0 40 50
          (cint e.x) (cint e.y) 40 50 e.facingLeft]
      else [])
  ++ p.filterMap (fun s => s.map fun b => RCmd.copyBullet (cint b.x) (cint b.y) 8 8)
  ++ [RCmd.present]

/-- The player as initialised in main (dy, walking and shooting are
left uninitialised by the C code; the embedding starts them zeroed,
which is what the loop behaves as on a zero-filled stack). -/
def man0 : ManSt :=
  { x := 50, y := 0, dy := 0, currentSprite := 4,
    walking := false, facingLeft := false, shooting := false,
    visible := true, alive := true }

/-- The enemy as initialised in main. -/
def enemy0 : ManSt :=
  { x := 250, y := 60, dy := 0, currentSprite := 4,
    walking := false, facingLeft := true, shooting := false,
    visible := true, alive := true }

/-- Only the fire key held. -/
def keysFire : Keys := ⟨false, false, false, false, true⟩

/-- Only the jump key held. -/
def keysUp : Keys := ⟨false, false, true, false, false⟩

/-- A pool call: PoolOp.spawn is an addBullet call, PoolOp.free a
removeBullet call. -/
inductive PoolOp
  | spawn (x y dx : ℚ)
  | free (i : ℕ)

def applyOp (p : Pool) : PoolOp → Pool
  | PoolOp.spawn x y dx => addBullet p x y dx
  | PoolOp.free i => removeBullet p i

/-- Any finite sequence of spawn and free calls run against the initial
(all NULL) pool. -/
def runOps (ops : List PoolOp) : Pool := ops.foldl applyOp initPool

/-! ### Basic pool lemmas -/

theorem addBullet_length (p : Pool) (x y dx : ℚ) :
    (addBullet p x y dx).length = p.length := by
  induction p with
  | nil => rfl
  | cons s rest ih => cases s <;> simp [addBullet, ih]

theorem removeBullet_length (p : Pool) (i : ℕ) :
    (removeBullet p i).length = p.length := by
  unfold removeBullet
  rcases h : p[i]? with - | s
  · rfl
  · cases s <;> simp

theorem runOps_length (ops : List PoolOp) : (runOps ops).length = MAX_BULLETS := by
  unfold runOps
  have h : ∀ (l : List PoolOp) (p : Pool), (l.foldl applyOp p).length = p.length := by
    intro l
    induction l with
    | nil => intro p; rfl
    | cons o l ih =>
      intro p
      rcases o with ⟨x, y, dx⟩ | i <;>
        simp [applyOp, ih, addBullet_length, removeBullet_length]
  rw [h, initPool, List.length_replicate]

theorem addBullet_full (p : Pool) (x y dx : ℚ)
    (h : ∀ s ∈ p, Option.isSome s = true) : addBullet p x y dx = p := by
  induction p with
  | nil => rfl
  | cons s rest ih =>
    cases s with
    | none => exact absurd (h none (List.mem_cons_self _ _)) (by simp)
    | some b =>
      simp only [addBullet]
      exact congrArg _ (ih fun s hs => h s (List.mem_cons_of_mem _ hs))

/-- C1.  For every sequence of spawn and despawn calls the pool never
holds more than MAX_BULLETS = 1000 live projectiles, and an addBullet
call against a pool whose slots are all occupied returns the pool
unchanged: no slot is mutated and no projectile appears. -/
theorem c1_capacity (ops : List PoolOp) (p : Pool) (x y dx : ℚ) :
    liveCount (runOps ops) ≤ MAX_BULLETS ∧
      ((∀ s ∈ p, Option.isSome s = true) → addBullet p x y dx = p) := by
  constructor
  · calc liveCount (runOps ops) ≤ (runOps ops).length := List.countP_le_length _
      _ = MAX_BULLETS := runOps_length ops
  · exact addBullet_full p x y dx

/-- Witness for C1: the bound at the empty call sequence, and the
no-op of a spawn against a concrete full pool. -/
theorem c1_capacity_witness :
    liveCount (runOps []) ≤ MAX_BULLETS ∧
      addBullet (List.replicate 1000 (some ⟨0, 0, 0⟩)) 1 2 3 =
        List.replicate 1000 (some ⟨0, 0, 0⟩) :=
  ⟨(c1_capacity [] [] 1 2 3).1,
   (c1_capacity [] (List.replicate 1000 (some ⟨0, 0, 0⟩)) 1 2 3).2
     (by intro s hs; rw [List.eq_of_mem_replicate hs]; rfl)⟩

/-- C9.  removeBullet is idempotent, removing slot i twice in a row
leaves slot i empty both times, removing an already empty slot is a
no-op, and no other slot is ever modified. -/
theorem c9_remove_idempotent (p : Pool) (i : ℕ) :
    removeBullet (removeBullet p i) i = removeBullet p i ∧
      (i < p.length → (removeBullet p i)[i]? = some none) ∧
      (p[i]? = some none → removeBullet p i = p) ∧
      (∀ j, j ≠ i → (removeBullet p i)[j]? = p[j]?) := by
  refine ⟨?_, ?_, ?_, ?_⟩
  · unfold removeBullet
    rcases h : p[i]? with - | s
    · simp [h]
    · cases s with
      | none => simp [h]
      | some b =>
        have hi : i < p.length := by
          by_contra hge
          rw [List.getElem?_eq_none (by omega)] at h
          exact Option.noConfusion h
        have h2 : (p.set i none)[i]? = some none :=
          List.getElem?_set_eq_of_lt none (by simpa using hi)
        simp [h, h2]
  · intro hi
    unfold removeBullet
    rcases h : p[i]? with - | s
    · exact absurd (List.getElem?_eq_none_iff.mp h) (by omega)
    · cases s with
      | none => simpa using h
      | some b => exact List.getElem?_set_eq_of_lt none (by simpa using hi)
  · intro h
    unfold removeBullet
    rw [h]
  · intro j hj
    unfold removeBullet
    rcases h : p[i]? with - | s
    · rfl
    · cases s with
      | none => rfl
      | some b => exact List.getElem?_set_ne (by omega)

/-- Witness for C9 at the concrete pool [occupied, empty] and slot 0,
with the untouched-other-slot part read at slot 1. -/
theorem c9_remove_idempotent_witness :
    (0 : ℕ) < ([some ⟨1, 1, 1⟩, none] : Pool).length ∧
      (removeBullet [some ⟨1, 1, 1⟩, none] 0)[0]? = some none ∧
      removeBullet (removeBullet [some ⟨1, 1, 1⟩, none] 0) 0 =
        removeBullet [some ⟨1, 1, 1⟩, none] 0 ∧
      (removeBullet [some ⟨1, 1, 1⟩, none] 0)[1]? =
        ([some ⟨1, 1, 1⟩, none] : Pool)[1]? :=
  ⟨by decide,
   (c9_remove_idempotent [some ⟨1, 1, 1⟩, none] 0).2.1 (by decide),
   (c9_remove_idempotent [some ⟨1, 1, 1⟩, none] 0).1,
   (c9_remove_idempotent [some ⟨1, 1, 1⟩, none] 0).2.2.2 1 (by decide)⟩

/-! ### The projectile pass: enemy independence and the travel bound -/

theorem updateBullets_snd (p : Pool) : ∀ e : ManSt,
    (updateBullets e p).2 = p.map stepSlot := by
  induction p with
  | nil => intro e; rfl
  | cons s rest ih =>
    intro e
    cases s with
    | none => simp [updateBullets, stepSlot, ih]
    | some b => simp [updateBullets, stepSlot, ih]

theorem updateBullets_alive (p : Pool) : ∀ e : ManSt, e.alive = false →
    ((updateBullets e p).1).alive = false := by
  induction p with
  | nil => intro e h; exact h
  | cons s rest ih =>
    intro e h
    cases s with
    | none => exact ih e h
    | some b =>
      simp only [updateBullets]
      split_ifs with hc
      · exact ih _ rfl
      · exact ih _ h

theorem enemyAnim_alive (t : ℕ) (e : ManSt) : (enemyAnim t e).alive = e.alive := by
  unfold enemyAnim
  split_ifs <;> rfl

/-- C7.  The projectile pass treats every slot independently of the
enemy (so a slot is never freed because of a collision, and the
projectile's motion is unaffected by it), a freed slot is exactly one
whose updated x leaves the travel bound x < -1000 or x > 1000, and on a
tick where the moved projectile overlaps the enemy box but stays in
bounds the slot still holds the projectile, moved by dx with y and dx
unchanged. -/
theorem c7_pass_through (e : ManSt) (p : Pool) (b : Bullet) :
    (updateBullets e p).2 = p.map stepSlot ∧
      (stepSlot (some b) = none ↔ b.x + b.dx < -1000 ∨ b.x + b.dx > 1000) ∧
      (hitsEnemy e (b.x + b.dx) b.y →
        ¬(b.x + b.dx < -1000 ∨ b.x + b.dx > 1000) →
        stepSlot (some b) = some ⟨b.x + b.dx, b.y, b.dx⟩) := by
  refine ⟨updateBullets_snd p e, ?_, ?_⟩
  · simp only [stepSlot]
    split_ifs with h
    · simp [h]
    · simp [h]
  · intro _ hb
    simp only [stepSlot]
    rw [if_neg hb]

/-- Witness for C7: a projectile moving into the enemy box is kept,
moved, and the enemy-overlap and in-bounds side conditions hold at the
concrete input. -/
theorem c7_pass_through_witness :
    hitsEnemy enemy0 ((260 : ℚ) + 3) 70 ∧
      ¬((260 : ℚ) + 3 < -1000 ∨ (260 : ℚ) + 3 > 1000) ∧
      stepSlot (some ⟨260, 70, 3⟩) = some ⟨(260 : ℚ) + 3, 70, 3⟩ :=
  ⟨by norm_num [hitsEnemy, enemy0],
   by norm_num,
   (c7_pass_through enemy0 [] ⟨260, 70, 3⟩).2.2
     (by norm_num [hitsEnemy, enemy0]) (by norm_num)⟩

/-- C8.  Death of the enemy is monotone under the game's update step:
from any state with the enemy's alive flag false, no run of the loop
under any key script ever makes it true again (the collision test only
ever clears the flag, and the death animation never writes it). -/
theorem c8_alive_monotone (ks : List Keys) (w : World)
    (h : w.enemy.alive = false) : (runKeys ks w).enemy.alive = false := by
  induction ks generalizing w with
  | nil => exact h
  | cons k ks ih =>
    refine ih (tick k w) ?_
    show (enemyAnim w.time (updateBullets w.enemy _).1).alive = false
    rw [enemyAnim_alive]
    exact updateBullets_alive _ w.enemy h

/-- Witness for C8: a dead enemy stays dead across a concrete tick. -/
theorem c8_alive_monotone_witness :
    ({ man := man0, enemy := { enemy0 with alive := false },
       pool := initPool, time := 0 } : World).enemy.alive = false ∧
      (runKeys [keysFire]
        { man := man0, enemy := { enemy0 with alive := false },
          pool := initPool, time := 0 }).enemy.alive = false :=
  ⟨rfl,
   c8_alive_monotone [keysFire]
     { man := man0, enemy := { enemy0 with alive := false },
       pool := initPool, time := 0 } rfl⟩

/-- C10.  If the player state does not have walking and shooting both
set, one processEvents step, under every key combination, again leaves
a state where they are not both set: the movement block is gated on not
shooting and the fire block on not walking. -/
theorem c10_walk_shoot_exclusive (k : Keys) (m : ManSt) (t : ℕ) (p : Pool)
    (h : ¬(m.walking = true ∧ m.shooting = true)) :
    ¬((processEvents k m t p).1.walking = true ∧
      (processEvents k m t p).1.shooting = true) := by
  unfold processEvents
  simp only [apply_ite Prod.fst, apply_ite ManSt.walking, apply_ite ManSt.shooting,
    ite_self]
  split_ifs <;> simp_all

/-- Witness for C10 at the initial player with all keys released. -/
theorem c10_walk_shoot_exclusive_witness :
    (¬(man0.walking = true ∧ man0.shooting = true)) ∧
      ¬((processEvents ⟨false, false, false, false, false⟩ man0 0 []).1.walking = true ∧
        (processEvents ⟨false, false, false, false, false⟩ man0 0 []).1.shooting = true) :=
  ⟨by decide,
   c10_walk_shoot_exclusive ⟨false, false, false, false, false⟩ man0 0 [] (by decide)⟩

/-- Amended C5, first half: the up key branch of processEvents sets the
vertical velocity to -8 exactly when the current vertical velocity is
zero, with no reference to the player's height: grounding plays no part
in the gate, which is why the impulse also fires at the apex of a jump
where dy passes through zero in mid air (see the counterexample). -/
theorem c5_jump_gate (k : Keys) (m : ManSt) (t : ℕ) (p : Pool) :
    (processEvents k m t p).1.dy =
      if k.up = true ∧ m.dy = 0 then -8 else m.dy := by
  unfold processEvents
  simp only [apply_ite Prod.fst, apply_ite ManSt.dy, ite_self]

/-! ### Ground clamp: convergence of the player physics step -/

theorem physicsMan_le (m : ManSt) : (physicsMan m).y ≤ 60 := by
  unfold physicsMan
  split_ifs with h
  · show (60 : ℚ) ≤ 60
    norm_num
  · show m.y + m.dy ≤ 60
    push_neg at h
    exact h

theorem physics_conv_of_fast : ∀ (N : ℕ) (m : ManSt),
    (⌈(61 : ℚ) - m.y⌉).toNat ≤ N → 1 ≤ m.dy →
    ∃ n, (physicsMan^[n] m).y = 60 ∧ (physicsMan^[n] m).dy = 0 := by
  intro N
  induction N with
  | zero =>
    intro m h0 h1
    have hc : ⌈(61 : ℚ) - m.y⌉ ≤ 0 := by omega
    have hy : (61 : ℚ) - m.y ≤ 0 := by exact_mod_cast Int.ceil_le.mp hc
    refine ⟨1, ?_⟩
    rw [Function.iterate_one]
    unfold physicsMan
    rw [if_pos (by linarith)]
    exact ⟨rfl, rfl⟩
  | succ N ih =>
    intro m hm h1
    by_cases hc : m.y + m.dy > 60
    · refine ⟨1, ?_⟩
      rw [Function.iterate_one]
      unfold physicsMan
      rw [if_pos hc]
      exact ⟨rfl, rfl⟩
    · have hstep : physicsMan m = { m with y := m.y + m.dy, dy := m.dy + 1/2 } := by
        unfold physicsMan
        rw [if_neg hc]
      have hmono : ⌈(61 : ℚ) - (m.y + m.dy)⌉ ≤ ⌈(61 : ℚ) - m.y⌉ - 1 := by
        have hle : (61 : ℚ) - (m.y + m.dy) ≤ (61 - m.y) - 1 := by linarith
        calc ⌈(61 : ℚ) - (m.y + m.dy)⌉ ≤ ⌈((61 : ℚ) - m.y) - 1⌉ := Int.ceil_le_ceil hle
          _ = ⌈(61 : ℚ) - m.y⌉ - 1 := Int.ceil_sub_one _
      have hN : (⌈(61 : ℚ) - (physicsMan m).y⌉).toNat ≤ N := by
        rw [hstep]
        show (⌈(61 : ℚ) - (m.y + m.dy)⌉).toNat ≤ N
        omega
      have hdy : 1 ≤ (physicsMan m).dy := by
        rw [hstep]
        show 1 ≤ m.dy + 1/2
        linarith
      obtain ⟨n, hn⟩ := ih (physicsMan m) hN hdy
      refine ⟨n + 1, ?_⟩
      rwa [Function.iterate_succ_apply]

theorem physics_conv : ∀ (N : ℕ) (m : ManSt), (⌈2 * (1 - m.dy)⌉).toNat ≤ N →
    ∃ n, (physicsMan^[n] m).y = 60 ∧ (physicsMan^[n] m).dy = 0 := by
  intro N
  induction N with
  | zero =>
    intro m h0
    have hc : ⌈2 * (1 - m.dy)⌉ ≤ 0 := by omega
    have hq : 2 * (1 - m.dy) ≤ 0 := by exact_mod_cast Int.ceil_le.mp hc
    exact physics_conv_of_fast _ m le_rfl (by linarith)
  | succ N ih =>
    intro m hm
    by_cases h1 : 1 ≤ m.dy
    · exact physics_conv_of_fast _ m le_rfl h1
    · by_cases hc : m.y + m.dy > 60
      · refine ⟨1, ?_⟩
        rw [Function.iterate_one]
        unfold physicsMan
        rw [if_pos hc]
        exact ⟨rfl, rfl⟩
      · have hstep : physicsMan m = { m with y := m.y + m.dy, dy := m.dy + 1/2 } := by
          unfold physicsMan
          rw [if_neg hc]
        have heq : ⌈2 * (1 - (m.dy + 1/2))⌉ = ⌈2 * (1 - m.dy)⌉ - 1 := by
          have hr : 2 * (1 - (m.dy + 1/2)) = 2 * (1 - m.dy) - 1 := by ring
          rw [hr, Int.ceil_sub_one]
        have hpos : 1 ≤ ⌈2 * (1 - m.dy)⌉ :=
          Int.ceil_pos.mpr (by linarith)
        have hN : (⌈2 * (1 - (physicsMan m).dy)⌉).toNat ≤ N := by
          rw [hstep]
          show (⌈2 * (1 - (m.dy + 1/2))⌉).toNat ≤ N
          omega
        obtain ⟨n, hn⟩ := ih (physicsMan m) hN
        refine ⟨n + 1, ?_⟩
        rwa [Function.iterate_succ_apply]

/-- C4.  From any initial negative vertical velocity, finitely many
player physics steps land the player exactly on the ground line y = 60
with dy reset to 0, and after every single physics step the player's y
never exceeds 60. -/
theorem c4_ground_clamp (m : ManSt) (h : m.dy < 0) :
    (∃ n, (physicsMan^[n] m).y = 60 ∧ (physicsMan^[n] m).dy = 0) ∧
      ∀ m' : ManSt, (physicsMan m').y ≤ 60 :=
  ⟨physics_conv _ m le_rfl, physicsMan_le⟩

/-- Witness for C4 at a concrete jump start: the player at height 0
falling with dy = -8. -/
theorem c4_ground_clamp_witness :
    ({ man0 with dy := -8 } : ManSt).dy < 0 ∧
      ((∃ n, (physicsMan^[n] ({ man0 with dy := -8 } : ManSt)).y = 60 ∧
          (physicsMan^[n] ({ man0 with dy := -8 } : ManSt)).dy = 0) ∧
        ∀ m' : ManSt, (physicsMan m').y ≤ 60) :=
  ⟨by norm_num, c4_ground_clamp { man0 with dy := -8 } (by norm_num)⟩

/-! ### The C2 scenario: a projectile at (300, 20) with dx = 3 -/

/-- The C2 scenario state: one projectile in slot 0 at (300, 20) with
dx = 3; the enemy occupies the box x in [250, 290], y in [60, 110],
which is exactly the game's initial enemy at (250, 60). -/
def c2World : World :=
  { man := man0, enemy := enemy0,
    pool := some ⟨300, 20, 3⟩ :: List.replicate 999 none,
    time := 0 }

theorem updateBullets_cons_none (e : ManSt) (rest : Pool) :
    updateBullets e (none :: rest) =
      ((updateBullets e rest).1, none :: (updateBullets e rest).2) := rfl

theorem updateBullets_cons_some (e : ManSt) (b : Bullet) (rest : Pool) :
    updateBullets e (some b :: rest) =
      ((updateBullets
          (if hitsEnemy e (b.x + b.dx) b.y then { e with alive := false } else e) rest).1,
        (if b.x + b.dx < -1000 ∨ b.x + b.dx > 1000 then none
         else some { b with x := b.x + b.dx }) ::
        (updateBullets
          (if hitsEnemy e (b.x + b.dx) b.y then { e with alive := false } else e) rest).2) :=
  rfl

theorem updateBullets_replicate (e : ManSt) (n : ℕ) :
    updateBullets e (List.replicate n none) = (e, List.replicate n none) := by
  induction n with
  | zero => rfl
  | succ n ih => rw [List.replicate_succ, updateBullets_cons_none, ih, ← List.replicate_succ]

/-- In the C2 scenario the enemy never changes (the projectile's
y-coordinate 20 is never inside the open interval (60, 110), so the
collision test never fires), and the projectile advances 3 per tick
until its x passes the +1000 travel bound at tick 234, where its slot
is freed. -/
theorem c2_scenario_inv : ∀ n : ℕ, ∃ m : ManSt, updLogic^[n] c2World =
    { man := m, enemy := enemy0,
      pool := if n < 234 then some ⟨300 + 3 * (n : ℚ), 20, 3⟩ :: List.replicate 999 none
              else initPool,
      time := n } := by
  intro n
  induction n with
  | zero =>
    refine ⟨man0, ?_⟩
    rw [Function.iterate_zero_apply, if_pos (by norm_num)]
    unfold c2World
    rw [World.mk.injEq]
    refine ⟨rfl, rfl, ?_, rfl⟩
    norm_num
  | succ n ih =>
    obtain ⟨m, hm⟩ := ih
    refine ⟨physicsMan m, ?_⟩
    rw [Function.iterate_succ_apply', hm]
    by_cases hn : n < 234
    · rw [if_pos hn]
      have hhit : ¬ hitsEnemy enemy0 ((300 + 3 * (n : ℚ)) + 3) 20 := by
        intro h
        have h3 := h.2.2.1
        norm_num [enemy0] at h3
      have hub : updateBullets enemy0
          (some ⟨300 + 3 * (n : ℚ), 20, 3⟩ :: List.replicate 999 none) =
          (enemy0,
            (if (300 + 3 * (n : ℚ)) + 3 < -1000 ∨ (300 + 3 * (n : ℚ)) + 3 > 1000 then none
             else some ⟨(300 + 3 * (n : ℚ)) + 3, 20, 3⟩) :: List.replicate 999 none) := by
        rw [updateBullets_cons_some, if_neg hhit, updateBullets_replicate]
      show updLogic _ = _
      unfold updLogic
      rw [World.mk.injEq]
      refine ⟨rfl, ?_, ?_, rfl⟩
      · show enemyAnim n (updateBullets enemy0 _).1 = enemy0
        rw [hub]
        simp [enemyAnim, enemy0]
      · show (updateBullets enemy0 _).2 = _
        rw [hub]
        by_cases hn2 : n < 233
        · have hb : ¬((300 + 3 * (n : ℚ)) + 3 < -1000 ∨ (300 + 3 * (n : ℚ)) + 3 > 1000) := by
            push_neg
            have h0 : (0 : ℚ) ≤ 3 * (n : ℚ) := by positivity
            have h1 : (n : ℚ) ≤ 232 := by exact_mod_cast Nat.le_of_lt_succ hn2
            constructor <;> linarith
          rw [if_neg hb, if_pos (by omega)]
          have hx : (300 + 3 * (n : ℚ)) + 3 = 300 + 3 * ((n : ℕ) + 1 : ℕ) := by
            push_cast
            ring
          rw [hx]
        · have h233 : n = 233 := by omega
          subst h233
          rw [if_pos (by right; push_cast; norm_num), if_neg (by omega)]
          show _ = initPool
          rw [initPool, MAX_BULLETS]
          rfl
    · rw [if_neg hn]
      show updLogic _ = _
      unfold updLogic
      rw [World.mk.injEq]
      have hub : updateBullets enemy0 initPool = (enemy0, initPool) := by
        rw [initPool, MAX_BULLETS]
        exact updateBullets_replicate enemy0 1000
      refine ⟨rfl, ?_, ?_, rfl⟩
      · show enemyAnim n (updateBullets enemy0 _).1 = enemy0
        rw [hub]
        simp [enemyAnim, enemy0]
      · show (updateBullets enemy0 _).2 = _
        rw [hub, if_neg (by omega)]

/-- Counterexample to C2 as stated: the scenario's projectile (spawned
at (300, 20) with dx = 3, enemy box (250, 290) x (60, 110)) moves in +x
away from the box and its y-coordinate 20 is below the box, so there is
no tick at which it enters the box: 240 update ticks later -- after the
projectile already left the +1000 travel bound at tick 234 and was
freed -- the enemy's alive flag still holds, so it never flipped to
false on any tick. -/
theorem c2_never_hits_counterexample :
    (updLogic^[240] c2World).enemy.alive = true ∧
      (updLogic^[240] c2World).pool = initPool := by
  obtain ⟨m, hm⟩ := c2_scenario_inv 240
  rw [hm]
  exact ⟨rfl, by norm_num⟩

/-- Amended C2.  After one update tick the scenario's projectile is at
(303, 20) and no collision has happened; and since its y-coordinate 20
never lies in the enemy's open interval (60, 110) while its x only
moves away from (250, 290), the projectile never enters the enemy box:
the enemy's alive flag stays true on every tick, and from tick 234 on
(once x exceeds the +1000 travel bound) the pool is empty again. -/
theorem c2_amended :
    (updLogic^[1] c2World).pool = some ⟨303, 20, 3⟩ :: List.replicate 999 none ∧
      (∀ n : ℕ, (updLogic^[n] c2World).enemy.alive = true) ∧
      (∀ n : ℕ, 234 ≤ n → (updLogic^[n] c2World).pool = initPool) := by
  refine ⟨?_, ?_, ?_⟩
  · obtain ⟨m, hm⟩ := c2_scenario_inv 1
    rw [hm]
    norm_num
  · intro n
    obtain ⟨m, hm⟩ := c2_scenario_inv n
    rw [hm]
    rfl
  · intro n hn
    obtain ⟨m, hm⟩ := c2_scenario_inv n
    rw [hm]
    have h4 : ¬ n < 234 := by omega
    simp [h4]

/-- Witness for the amended C2, read at tick 235. -/
theorem c2_amended_witness :
    (234 : ℕ) ≤ 235 ∧ (updLogic^[235] c2World).pool = initPool ∧
      (updLogic^[235] c2World).enemy.alive = true :=
  ⟨by norm_num, c2_amended.2.2 235 (by norm_num), c2_amended.2.1 235⟩

/-! ### C5: the jump impulse re-fires at the apex of a jump -/

/-- The grounded start for the jump trace: the player standing on the
ground line with zero vertical velocity, only the up key held. -/
def c5World : World :=
  { man := { man0 with y := 60 }, enemy := enemy0, pool := initPool, time := 0 }

theorem enemyAnim_of_alive (t : ℕ) (e : ManSt) (h : e.alive = true) :
    enemyAnim t e = e := by
  unfold enemyAnim
  rw [if_neg]
  simp [h]

theorem updateBullets_initPool (e : ManSt) :
    updateBullets e initPool = (e, initPool) := by
  rw [initPool, MAX_BULLETS]
  exact updateBullets_replicate e 1000

theorem tick_up_noimpulse (y dy y2 dy2 : ℚ) (t : ℕ) (h0 : ¬ dy = 0)
    (hc : ¬(y + dy > 60)) (hy : y2 = y + dy) (hd : dy2 = dy + 1/2) :
    tick keysUp ⟨⟨50, y, dy, 4, false, false, false, true, true⟩, enemy0, initPool, t⟩ =
      ⟨⟨50, y2, dy2, 4, false, false, false, true, true⟩, enemy0, initPool, t + 1⟩ := by
  subst hy
  subst hd
  have hpe : processEvents keysUp ⟨50, y, dy, 4, false, false, false, true, true⟩ t initPool =
      (⟨50, y, dy, 4, false, false, false, true, true⟩, initPool) := by
    simp [processEvents, keysUp, h0]
  simp only [tick, updLogic]
  rw [hpe]
  dsimp only
  rw [updateBullets_initPool]
  dsimp only
  rw [enemyAnim_of_alive t enemy0 rfl]
  unfold physicsMan
  dsimp only
  rw [if_neg hc]

theorem tick_up_impulse (y y2 dy2 : ℚ) (t : ℕ) (hc : ¬(y + -8 > 60))
    (hy : y2 = y - 8) (hd : dy2 = -15/2) :
    tick keysUp ⟨⟨50, y, 0, 4, false, false, false, true, true⟩, enemy0, initPool, t⟩ =
      ⟨⟨50, y2, dy2, 4, false, false, false, true, true⟩, enemy0, initPool, t + 1⟩ := by
  subst hy
  subst hd
  have hpe : processEvents keysUp ⟨50, y, 0, 4, false, false, false, true, true⟩ t initPool =
      (⟨50, y, -8, 4, false, false, false, true, true⟩, initPool) := by
    simp [processEvents, keysUp]
  simp only [tick, updLogic]
  rw [hpe]
  dsimp only
  rw [updateBullets_initPool]
  dsimp only
  rw [enemyAnim_of_alive t enemy0 rfl]
  unfold physicsMan
  dsimp only
  rw [if_neg hc]
  simp only [World.mk.injEq, ManSt.mk.injEq]
  norm_num
  ring

/-- Counterexample to C5 as stated.  Starting grounded (y = 60, dy = 0)
and holding only the up key, the first tick applies the jump impulse;
sixteen ticks after the start the player is in mid air at y = -8
(the ground line is 60, so this is a reachable non-grounded state) with
dy back at exactly 0, and the next tick applies the impulse a second
time in mid air: afterwards dy = -8 + 1/2 = -15/2 and y = -16, where
without an impulse the tick would have produced dy = 1/2 and y = -8.
So the up key is not edge-triggered only while grounded. -/
theorem c5_midair_jump_counterexample :
    ((tick keysUp)^[16] c5World).man.y = -8 ∧
      ((tick keysUp)^[16] c5World).man.dy = 0 ∧
      ((tick keysUp)^[16] c5World).man.y ≠ 60 ∧
      ((tick keysUp)^[17] c5World).man.y = -16 ∧
      ((tick keysUp)^[17] c5World).man.dy = -15/2 := by
  have T0 : c5World =
      ⟨⟨50, 60, 0, 4, false, false, false, true, true⟩, enemy0, initPool, 0⟩ := rfl
  have H1 : (tick keysUp)^[1] c5World =
      ⟨⟨50, 52, -15/2, 4, false, false, false, true, true⟩, enemy0, initPool, 1⟩ := by
    rw [Function.iterate_one, T0]
    exact tick_up_impulse 60 52 (-15/2) 0 (by norm_num) (by norm_num) (by norm_num)
  have H2 : (tick keysUp)^[2] c5World =
      ⟨⟨50, 89/2, -7, 4, false, false, false, true, true⟩, enemy0, initPool, 2⟩ := by
    rw [show (2 : ℕ) = 1 + 1 from rfl, Function.iterate_succ_apply', H1]
    exact tick_up_noimpulse 52 (-15/2) (89/2) (-7) 1 (by norm_num) (by norm_num)
      (by norm_num) (by norm_num)
  have H3 : (tick keysUp)^[3] c5World =
      ⟨⟨50, 75/2, -13/2, 4, false, false, false, true, true⟩, enemy0, initPool, 3⟩ := by
    rw [show (3 : ℕ) = 2 + 1 from rfl, Function.iterate_succ_apply', H2]
    exact tick_up_noimpulse (89/2) (-7) (75/2) (-13/2) 2 (by norm_num) (by norm_num)
      (by norm_num) (by norm_num)
  have H4 : (tick keysUp)^[4] c5World =
      ⟨⟨50, 31, -6, 4, false, false, false, true, true⟩, enemy0, initPool, 4⟩ := by
    rw [show (4 : ℕ) = 3 + 1 from rfl, Function.iterate_succ_apply', H3]
    exact tick_up_noimpulse (75/2) (-13/2) 31 (-6) 3 (by norm_num) (by norm_num)
      (by norm_num) (by norm_num)
  have H5 : (tick keysUp)^[5] c5World =
      ⟨⟨50, 25, -11/2, 4, false, false, false, true, true⟩, enemy0, initPool, 5⟩ := by
    rw [show (5 : ℕ) = 4 + 1 from rfl, Function.iterate_succ_apply', H4]
    exact tick_up_noimpulse 31 (-6) 25 (-11/2) 4 (by norm_num) (by norm_num)
      (by norm_num) (by norm_num)
  have H6 : (tick keysUp)^[6] c5World =
      ⟨⟨50, 39/2, -5, 4, false, false, false, true, true⟩, enemy0, initPool, 6⟩ := by
    rw [show (6 : ℕ) = 5 + 1 from rfl, Function.iterate_succ_apply', H5]
    exact tick_up_noimpulse 25 (-11/2) (39/2) (-5) 5 (by norm_num) (by norm_num)
      (by norm_num) (by norm_num)
  have H7 : (tick keysUp)^[7] c5World =
      ⟨⟨50, 29/2, -9/2, 4, false, false, false, true, true⟩, enemy0, initPool, 7⟩ := by
    rw [show (7 : ℕ) = 6 + 1 from rfl, Function.iterate_succ_apply', H6]
    exact tick_up_noimpulse (39/2) (-5) (29/2) (-9/2) 6 (by norm_num) (by norm_num)
      (by norm_num) (by norm_num)
  have H8 : (tick keysUp)^[8] c5World =
      ⟨⟨50, 10, -4, 4, false, false, false, true, true⟩, enemy0, initPool, 8⟩ := by
    rw [show (8 : ℕ) = 7 + 1 from rfl, Function.iterate_succ_apply', H7]
    exact tick_up_noimpulse (29/2) (-9/2) 10 (-4) 7 (by norm_num) (by norm_num)
      (by norm_num) (by norm_num)
  have H9 : (tick keysUp)^[9] c5World =
      ⟨⟨50, 6, -7/2, 4, false, false, false, true, true⟩, enemy0, initPool, 9⟩ := by
    rw [show (9 : ℕ) = 8 + 1 from rfl, Function.iterate_succ_apply', H8]
    exact tick_up_noimpulse 10 (-4) 6 (-7/2) 8 (by norm_num) (by norm_num)
      (by norm_num) (by norm_num)
  have H10 : (tick keysUp)^[10] c5World =
      ⟨⟨50, 5/2, -3, 4, false, false, false, true, true⟩, enemy0, initPool, 10⟩ := by
    rw [show (10 : ℕ) = 9 + 1 from rfl, Function.iterate_succ_apply', H9]
    exact tick_up_noimpulse 6 (-7/2) (5/2) (-3) 9 (by norm_num) (by norm_num)
      (by norm_num) (by norm_num)
  have H11 : (tick keysUp)^[11] c5World =
      ⟨⟨50, -1/2, -5/2, 4, false, false, false, true, true⟩, enemy0, initPool, 11⟩ := by
    rw [show (11 : ℕ) = 10 + 1 from rfl, Function.iterate_succ_apply', H10]
    exact tick_up_noimpulse (5/2) (-3) (-1/2) (-5/2) 10 (by norm_num) (by norm_num)
      (by norm_num) (by norm_num)
  have H12 : (tick keysUp)^[12] c5World =
      ⟨⟨50, -3, -2, 4, false, false, false, true, true⟩, enemy0, initPool, 12⟩ := by
    rw [show (12 : ℕ) = 11 + 1 from rfl, Function.iterate_succ_apply', H11]
    exact tick_up_noimpulse (-1/2) (-5/2) (-3) (-2) 11 (by norm_num) (by norm_num)
      (by norm_num) (by norm_num)
  have H13 : (tick keysUp)^[13] c5World =
      ⟨⟨50, -5, -3/2, 4, false, false, false, true, true⟩, enemy0, initPool, 13⟩ := by
    rw [show (13 : ℕ) = 12 + 1 from rfl, Function.iterate_succ_apply', H12]
    exact tick_up_noimpulse (-3) (-2) (-5) (-3/2) 12 (by norm_num) (by norm_num)
      (by norm_num) (by norm_num)
  have H14 : (tick keysUp)^[14] c5World =
      ⟨⟨50, -13/2, -1, 4, false, false, false, true, true⟩, enemy0, initPool, 14⟩ := by
    rw [show (14 : ℕ) = 13 + 1 from rfl, Function.iterate_succ_apply', H13]
    exact tick_up_noimpulse (-5) (-3/2) (-13/2) (-1) 13 (by norm_num) (by norm_num)
      (by norm_num) (by norm_num)
  have H15 : (tick keysUp)^[15] c5World =
      ⟨⟨50, -15/2, -1/2, 4, false, false, false, true, true⟩, enemy0, initPool, 15⟩ := by
    rw [show (15 : ℕ) = 14 + 1 from rfl, Function.iterate_succ_apply', H14]
    exact tick_up_noimpulse (-13/2) (-1) (-15/2) (-1/2) 14 (by norm_num) (by norm_num)
      (by norm_num) (by norm_num)
  have H16 : (tick keysUp)^[16] c5World =
      ⟨⟨50, -8, 0, 4, false, false, false, true, true⟩, enemy0, initPool, 16⟩ := by
    rw [show (16 : ℕ) = 15 + 1 from rfl, Function.iterate_succ_apply', H15]
    exact tick_up_noimpulse (-15/2) (-1/2) (-8) 0 15 (by norm_num) (by norm_num)
      (by norm_num) (by norm_num)
  have H17 : (tick keysUp)^[17] c5World =
      ⟨⟨50, -16, -15/2, 4, false, false, false, true, true⟩, enemy0, initPool, 17⟩ := by
    rw [show (17 : ℕ) = 16 + 1 from rfl, Function.iterate_succ_apply', H16]
    exact tick_up_impulse (-8) (-16) (-15/2) 16 (by norm_num) (by norm_num) (by norm_num)
  rw [H16, H17]
  refine ⟨rfl, rfl, by norm_num, rfl, rfl⟩

/-! ### C6: the render pass and the enemy source rectangle -/

set_option maxRecDepth 100000 in
/-- C6 fails on the code: at the game's initial state (both actors
visible, both with currentSprite = 4) the frame blits the player with
source rectangle x = 40 * 4 = 160 as the claim says, but blits the
enemy with source rectangle x = 40 * 40 * 4 = 6400, not
40 * currentSprite = 160: the enemy code path multiplies by an extra
factor of 40.  Both blits do use the fixed 40 x 50 source and
destination boxes. -/
theorem c6_enemy_srcrect_bug :
    doRender man0 enemy0 initPool =
      [RCmd.setColor 0 0 255 255, RCmd.clear, RCmd.setColor 255 255 255 255, RCmd.copyBG,
       RCmd.blit Tex.playerSheet 160 0 40 50 50 0 40 50 false,
       RCmd.blit Tex.enemySheet 6400 0 40 50 250 60 40 50 true,
       RCmd.present] ∧
      (40 * 40 * (4 : ℤ) = 6400 ∧ 40 * (4 : ℤ) = 160 ∧ (6400 : ℤ) ≠ 160) := by
  constructor
  · decide
  · decide

/-! ### C3: holding fire for twelve ticks while stationary -/

/-- The x spawn offset the fire branch uses: +35 from the player when
facing right, +5 when facing left. -/
def spX (x : ℚ) (f : Bool) : ℚ := if f = false then x + 35 else x + 5

/-- The horizontal velocity of a spawned projectile: +3 facing right,
-3 facing left. -/
def spD (f : Bool) : ℚ := if f = false then 3 else -3

theorem tick_time (k : Keys) (w : World) : (tick k w).time = w.time + 1 := rfl

theorem tick_man (k : Keys) (w : World) :
    (tick k w).man = physicsMan (processEvents k w.man w.time w.pool).1 := rfl

theorem tick_pool (k : Keys) (w : World) :
    (tick k w).pool = List.map stepSlot (processEvents k w.man w.time w.pool).2 := by
  show (updateBullets w.enemy (processEvents k w.man w.time w.pool).2).2 = _
  rw [updateBullets_snd]

theorem pe_fire_idle (m : ManSt) (t : ℕ) (p : Pool) (hs : m.shooting = false) :
    processEvents keysFire m t p =
      ({ m with currentSprite := if t % 6 = 0 then 5 else 4,
                walking := false, shooting := true },
       if t % 6 = 0 then
         addBullet p (spX m.x m.facingLeft) (m.y + 20) (spD m.facingLeft)
       else p) := by
  simp [processEvents, keysFire, hs, spX, spD]
  cases hf : m.facingLeft <;> simp [hf]

theorem pe_fire_active (m : ManSt) (t : ℕ) (p : Pool) (hw : m.walking = false)
    (hs : m.shooting = true) :
    processEvents keysFire m t p =
      ({ m with
          currentSprite :=
            if t % 6 = 0 then (if m.currentSprite = 4 then 5 else 4) else m.currentSprite,
          shooting := true },
       if t % 6 = 0 then
         addBullet p (spX m.x m.facingLeft) (m.y + 20) (spD m.facingLeft)
       else p) := by
  simp [processEvents, keysFire, hs, hw, spX, spD]
  cases hf : m.facingLeft <;> simp [hf]

theorem pe_fire_fields (m : ManSt) (t : ℕ) (p : Pool) (hw : m.walking = false) :
    (processEvents keysFire m t p).1.x = m.x ∧
      (processEvents keysFire m t p).1.y = m.y ∧
      (processEvents keysFire m t p).1.dy = m.dy ∧
      (processEvents keysFire m t p).1.walking = false ∧
      (processEvents keysFire m t p).1.facingLeft = m.facingLeft ∧
      (processEvents keysFire m t p).2 =
        (if t % 6 = 0 then
          addBullet p (spX m.x m.facingLeft) (m.y + 20) (spD m.facingLeft)
         else p) := by
  cases hs : m.shooting
  · rw [pe_fire_idle m t p hs]
    exact ⟨rfl, rfl, rfl, rfl, rfl, rfl⟩
  · rw [pe_fire_active m t p hw hs]
    exact ⟨rfl, rfl, rfl, hw, rfl, rfl⟩

theorem physicsMan_fields (m : ManSt) (hy : m.y = 60) (hdy : m.dy = 0 ∨ m.dy = 1/2) :
    (physicsMan m).x = m.x ∧ (physicsMan m).y = 60 ∧
      (physicsMan m).walking = m.walking ∧
      (physicsMan m).facingLeft = m.facingLeft ∧
      ((physicsMan m).dy = 0 ∨ (physicsMan m).dy = 1/2) := by
  rcases hdy with h | h
  · unfold physicsMan
    rw [if_neg (by rw [hy, h]; norm_num)]
    refine ⟨rfl, ?_, rfl, rfl, Or.inr ?_⟩
    · show m.y + m.dy = 60
      rw [hy, h]
      norm_num
    · show m.dy + 1/2 = 1/2
      rw [h]
      norm_num
  · unfold physicsMan
    rw [if_pos (by rw [hy, h]; norm_num)]
    exact ⟨rfl, rfl, rfl, rfl, Or.inl rfl⟩

/-- One fire-held tick as the pool sees it: spawn on the gate tick,
then advance every slot. -/
def fireSpawn (x₀ : ℚ) (f : Bool) (t : ℕ) (p : Pool) : Pool :=
  if t % 6 = 0 then addBullet p (spX x₀ f) 80 (spD f) else p

/-- The pool after n fire-held ticks starting at globalTime t. -/
def poolRun (x₀ : ℚ) (f : Bool) (t n : ℕ) (p : Pool) : Pool :=
  match n with
  | 0 => p
  | n + 1 => poolRun x₀ f (t + 1) n (List.map stepSlot (fireSpawn x₀ f t p))

theorem poolRun_zero (x₀ : ℚ) (f : Bool) (t : ℕ) (p : Pool) :
    poolRun x₀ f t 0 p = p := rfl

theorem poolRun_succ (x₀ : ℚ) (f : Bool) (t n : ℕ) (p : Pool) :
    poolRun x₀ f t (n + 1) p =
      poolRun x₀ f (t + 1) n (List.map stepSlot (fireSpawn x₀ f t p)) := rfl

theorem tick_fire_good (x₀ : ℚ) (f : Bool) (w : World)
    (hx : w.man.x = x₀) (hy : w.man.y = 60) (hw : w.man.walking = false)
    (hf : w.man.facingLeft = f) (hdy : w.man.dy = 0 ∨ w.man.dy = 1/2) :
    (tick keysFire w).man.x = x₀ ∧ (tick keysFire w).man.y = 60 ∧
      (tick keysFire w).man.walking = false ∧
      (tick keysFire w).man.facingLeft = f ∧
      ((tick keysFire w).man.dy = 0 ∨ (tick keysFire w).man.dy = 1/2) ∧
      (tick keysFire w).pool = List.map stepSlot (fireSpawn x₀ f w.time w.pool) := by
  obtain ⟨p1, p2, p3, p4, p5, p6⟩ := pe_fire_fields w.man w.time w.pool hw
  have hpy : (processEvents keysFire w.man w.time w.pool).1.y = 60 := by rw [p2, hy]
  have hpdy : (processEvents keysFire w.man w.time w.pool).1.dy = 0 ∨
      (processEvents keysFire w.man w.time w.pool).1.dy = 1/2 := by
    rw [p3]
    exact hdy
  obtain ⟨q1, q2, q3, q4, q5⟩ :=
    physicsMan_fields (processEvents keysFire w.man w.time w.pool).1 hpy hpdy
  refine ⟨?_, ?_, ?_, ?_, ?_, ?_⟩
  · rw [tick_man, q1, p1, hx]
  · rw [tick_man, q2]
  · rw [tick_man, q3, p4]
  · rw [tick_man, q4, p5, hf]
  · rw [tick_man]
    exact q5
  · rw [tick_pool, p6, hx, hf, hy]
    unfold fireSpawn
    norm_num

theorem fire_run (x₀ : ℚ) (f : Bool) : ∀ (n : ℕ) (w : World),
    w.man.x = x₀ → w.man.y = 60 → w.man.walking = false →
    w.man.facingLeft = f → (w.man.dy = 0 ∨ w.man.dy = 1/2) →
    ((tick keysFire)^[n] w).pool = poolRun x₀ f w.time n w.pool := by
  intro n
  induction n with
  | zero =>
    intro w _ _ _ _ _
    rw [Function.iterate_zero_apply, poolRun_zero]
  | succ n ih =>
    intro w hx hy hw hf hdy
    obtain ⟨g1, g2, g3, g4, g5, g6⟩ := tick_fire_good x₀ f w hx hy hw hf hdy
    rw [Function.iterate_succ_apply, poolRun_succ, ih (tick keysFire w) g1 g2 g3 g4 g5,
      tick_time, g6]

theorem poolRun_mod6 (x₀ : ℚ) (f : Bool) : ∀ (n t t' : ℕ) (p : Pool), t % 6 = t' % 6 →
    poolRun x₀ f t n p = poolRun x₀ f t' n p := by
  intro n
  induction n with
  | zero => intro t t' p h; rw [poolRun_zero, poolRun_zero]
  | succ n ih =>
    intro t t' p h
    have hsp : fireSpawn x₀ f t p = fireSpawn x₀ f t' p := by
      unfold fireSpawn
      rw [h]
    rw [poolRun_succ, poolRun_succ, hsp, ih (t + 1) (t' + 1) _ (by omega)]

theorem sp_bounds (x₀ : ℚ) (f : Bool) (h1 : -900 ≤ x₀) (h2 : x₀ ≤ 900) (q : ℚ)
    (hq1 : 0 ≤ q) (hq2 : q ≤ 12) :
    -1000 ≤ spX x₀ f + spD f * q ∧ spX x₀ f + spD f * q ≤ 1000 := by
  cases f <;> simp [spX, spD] <;> constructor <;> nlinarith

theorem stepSlot_keep (u y d u2 : ℚ) (h3 : u2 = u + d) (h1 : -1000 ≤ u2)
    (h2 : u2 ≤ 1000) : stepSlot (some ⟨u, y, d⟩) = some ⟨u2, y, d⟩ := by
  subst h3
  have hb : ¬(u + d < -1000 ∨ u + d > 1000) := by
    push_neg
    exact ⟨h1, h2⟩
  show (if u + d < -1000 ∨ u + d > 1000 then none
        else some { x := u + d, y := y, dx := d } : Option Bullet) = _
  rw [if_neg hb]

theorem mapStep_replicate (n : ℕ) :
    List.map stepSlot (List.replicate n none) = List.replicate n none := by
  rw [List.map_replicate]
  rfl

theorem mapStep_initPool : List.map stepSlot initPool = initPool := by
  rw [initPool, MAX_BULLETS]
  exact mapStep_replicate 1000

theorem mapStep_one (u y d u2 : ℚ) (n : ℕ) (h3 : u2 = u + d) (h1 : -1000 ≤ u2)
    (h2 : u2 ≤ 1000) :
    List.map stepSlot (some ⟨u, y, d⟩ :: List.replicate n none) =
      some ⟨u2, y, d⟩ :: List.replicate n none := by
  rw [List.map_cons, stepSlot_keep u y d u2 h3 h1 h2, mapStep_replicate]

theorem mapStep_two (u v y d u2 v2 : ℚ) (n : ℕ) (hu : u2 = u + d) (hu1 : -1000 ≤ u2)
    (hu2 : u2 ≤ 1000) (hv : v2 = v + d) (hv1 : -1000 ≤ v2) (hv2 : v2 ≤ 1000) :
    List.map stepSlot (some ⟨u, y, d⟩ :: some ⟨v, y, d⟩ :: List.replicate n none) =
      some ⟨u2, y, d⟩ :: some ⟨v2, y, d⟩ :: List.replicate n none := by
  rw [List.map_cons, List.map_cons, stepSlot_keep u y d u2 hu hu1 hu2,
    stepSlot_keep v y d v2 hv hv1 hv2, mapStep_replicate]

theorem addBullet_replicate (n : ℕ) (x y d : ℚ) :
    addBullet (List.replicate (n + 1) none) x y d =
      some ⟨x, y, d⟩ :: List.replicate n none := by
  rw [List.replicate_succ]
  rfl

theorem addBullet_initPool (x y d : ℚ) :
    addBullet initPool x y d = some ⟨x, y, d⟩ :: List.replicate 999 none := by
  rw [initPool, MAX_BULLETS]
  exact addBullet_replicate 999 x y d

theorem addBullet_one (u y d x2 y2 d2 : ℚ) (n m : ℕ) (h : n = m + 1) :
    addBullet (some ⟨u, y, d⟩ :: List.replicate n none) x2 y2 d2 =
      some ⟨u, y, d⟩ :: some ⟨x2, y2, d2⟩ :: List.replicate m none := by
  subst h
  show some ⟨u, y, d⟩ :: addBullet (List.replicate (m + 1) none) x2 y2 d2 = _
  rw [addBullet_replicate]

theorem poolRun_add (x₀ : ℚ) (f : Bool) : ∀ (a b t : ℕ) (p : Pool),
    poolRun x₀ f t (a + b) p = poolRun x₀ f (t + a) b (poolRun x₀ f t a p) := by
  intro a
  induction a with
  | zero =>
    intro b t p
    rw [poolRun_zero]
    norm_num
  | succ a ih =>
    intro b t p
    have h1 : a + 1 + b = (a + b) + 1 := by omega
    rw [h1, poolRun_succ, ih b (t + 1), poolRun_succ,
      show t + (a + 1) = t + 1 + a from by omega]

theorem poolRun_idle (x₀ : ℚ) (f : Bool) : ∀ (j t : ℕ),
    (∀ i, i < j → (t + i) % 6 ≠ 0) → poolRun x₀ f t j initPool = initPool := by
  intro j
  induction j with
  | zero => intro t h; exact poolRun_zero x₀ f t initPool
  | succ j ih =>
    intro t h
    rw [poolRun_succ]
    have h0 : ¬ t % 6 = 0 := by
      have := h 0 (by omega)
      simpa using this
    unfold fireSpawn
    rw [if_neg h0, mapStep_initPool]
    refine ih (t + 1) (fun i hi => ?_)
    have := h (i + 1) (by omega)
    have he : t + 1 + i = t + (i + 1) := by omega
    rw [he]
    exact this

theorem poolRun_single_step (x₀ : ℚ) (f : Bool) (t : ℕ) (u u2 : ℚ) (ht : ¬ t % 6 = 0)
    (h3 : u2 = u + spD f) (hb1 : -1000 ≤ u2) (hb2 : u2 ≤ 1000) :
    poolRun x₀ f t 1 (some ⟨u, 80, spD f⟩ :: List.replicate 999 none) =
      some ⟨u2, 80, spD f⟩ :: List.replicate 999 none := by
  have ha : poolRun x₀ f t 1 (some ⟨u, 80, spD f⟩ :: List.replicate 999 none) =
      List.map stepSlot
        (fireSpawn x₀ f t (some ⟨u, 80, spD f⟩ :: List.replicate 999 none)) := rfl
  rw [ha]
  unfold fireSpawn
  rw [if_neg ht, mapStep_one u 80 (spD f) u2 999 h3 hb1 hb2]

theorem poolRun_spawn_step (x₀ : ℚ) (f : Bool) (t : ℕ) (u u2 w2 : ℚ) (ht : t % 6 = 0)
    (h3 : u2 = u + spD f) (hb1 : -1000 ≤ u2) (hb2 : u2 ≤ 1000)
    (h4 : w2 = spX x₀ f + spD f) (hc1 : -1000 ≤ w2) (hc2 : w2 ≤ 1000) :
    poolRun x₀ f t 1 (some ⟨u, 80, spD f⟩ :: List.replicate 999 none) =
      some ⟨u2, 80, spD f⟩ :: some ⟨w2, 80, spD f⟩ :: List.replicate 998 none := by
  have ha : poolRun x₀ f t 1 (some ⟨u, 80, spD f⟩ :: List.replicate 999 none) =
      List.map stepSlot
        (fireSpawn x₀ f t (some ⟨u, 80, spD f⟩ :: List.replicate 999 none)) := rfl
  rw [ha]
  unfold fireSpawn
  rw [if_pos ht, addBullet_one u 80 (spD f) (spX x₀ f) 80 (spD f) 999 998 (by norm_num),
    mapStep_two u (spX x₀ f) 80 (spD f) u2 w2 998 h3 hb1 hb2 h4 hc1 hc2]

theorem poolRun_pair_step (x₀ : ℚ) (f : Bool) (t : ℕ) (u v u2 v2 : ℚ) (ht : ¬ t % 6 = 0)
    (h3 : u2 = u + spD f) (hb1 : -1000 ≤ u2) (hb2 : u2 ≤ 1000)
    (h4 : v2 = v + spD f) (hc1 : -1000 ≤ v2) (hc2 : v2 ≤ 1000) :
    poolRun x₀ f t 1
        (some ⟨u, 80, spD f⟩ :: some ⟨v, 80, spD f⟩ :: List.replicate 998 none) =
      some ⟨u2, 80, spD f⟩ :: some ⟨v2, 80, spD f⟩ :: List.replicate 998 none := by
  have ha : poolRun x₀ f t 1
      (some ⟨u, 80, spD f⟩ :: some ⟨v, 80, spD f⟩ :: List.replicate 998 none) =
      List.map stepSlot
        (fireSpawn x₀ f t
          (some ⟨u, 80, spD f⟩ :: some ⟨v, 80, spD f⟩ :: List.replicate 998 none)) := rfl
  rw [ha]
  unfold fireSpawn
  rw [if_neg ht, mapStep_two u v 80 (spD f) u2 v2 998 h3 hb1 hb2 h4 hc1 hc2]

theorem poolRun_E1 (x₀ : ℚ) (f : Bool) (h1 : -900 ≤ x₀) (h2 : x₀ ≤ 900) :
    poolRun x₀ f 0 1 initPool =
      some ⟨spX x₀ f + spD f * 1, 80, spD f⟩ :: List.replicate 999 none := by
  have ha : poolRun x₀ f 0 1 initPool =
      List.map stepSlot (fireSpawn x₀ f 0 initPool) := rfl
  rw [ha]
  unfold fireSpawn
  rw [if_pos (by norm_num), addBullet_initPool,
    mapStep_one (spX x₀ f) 80 (spD f) (spX x₀ f + spD f * 1) 999 (by ring)
      (sp_bounds x₀ f h1 h2 1 (by norm_num) (by norm_num)).1
      (sp_bounds x₀ f h1 h2 1 (by norm_num) (by norm_num)).2]

theorem poolRun_E2 (x₀ : ℚ) (f : Bool) (h1 : -900 ≤ x₀) (h2 : x₀ ≤ 900) :
    poolRun x₀ f 0 2 initPool =
      some ⟨spX x₀ f + spD f * 2, 80, spD f⟩ :: List.replicate 999 none := by
  have ha : poolRun x₀ f 0 2 initPool =
      poolRun x₀ f 1 1 (poolRun x₀ f 0 1 initPool) := poolRun_add x₀ f 1 1 0 initPool
  rw [ha, poolRun_E1 x₀ f h1 h2,
    poolRun_single_step x₀ f 1 (spX x₀ f + spD f * 1) (spX x₀ f + spD f * 2)
      (by norm_num) (by ring)
      (sp_bounds x₀ f h1 h2 2 (by norm_num) (by norm_num)).1
      (sp_bounds x₀ f h1 h2 2 (by norm_num) (by norm_num)).2]

theorem poolRun_E3 (x₀ : ℚ) (f : Bool) (h1 : -900 ≤ x₀) (h2 : x₀ ≤ 900) :
    poolRun x₀ f 0 3 initPool =
      some ⟨spX x₀ f + spD f * 3, 80, spD f⟩ :: List.replicate 999 none := by
  have ha : poolRun x₀ f 0 3 initPool =
      poolRun x₀ f 2 1 (poolRun x₀ f 0 2 initPool) := poolRun_add x₀ f 2 1 0 initPool
  rw [ha, poolRun_E2 x₀ f h1 h2,
    poolRun_single_step x₀ f 2 (spX x₀ f + spD f * 2) (spX x₀ f + spD f * 3)
      (by norm_num) (by ring)
      (sp_bounds x₀ f h1 h2 3 (by norm_num) (by norm_num)).1
      (sp_bounds x₀ f h1 h2 3 (by norm_num) (by norm_num)).2]

theorem poolRun_E4 (x₀ : ℚ) (f : Bool) (h1 : -900 ≤ x₀) (h2 : x₀ ≤ 900) :
    poolRun x₀ f 0 4 initPool =
      some ⟨spX x₀ f + spD f * 4, 80, spD f⟩ :: List.replicate 999 none := by
  have ha : poolRun x₀ f 0 4 initPool =
      poolRun x₀ f 3 1 (poolRun x₀ f 0 3 initPool) := poolRun_add x₀ f 3 1 0 initPool
  rw [ha, poolRun_E3 x₀ f h1 h2,
    poolRun_single_step x₀ f 3 (spX x₀ f + spD f * 3) (spX x₀ f + spD f * 4)
      (by norm_num) (by ring)
      (sp_bounds x₀ f h1 h2 4 (by norm_num) (by norm_num)).1
      (sp_bounds x₀ f h1 h2 4 (by norm_num) (by norm_num)).2]

theorem poolRun_E5 (x₀ : ℚ) (f : Bool) (h1 : -900 ≤ x₀) (h2 : x₀ ≤ 900) :
    poolRun x₀ f 0 5 initPool =
      some ⟨spX x₀ f + spD f * 5, 80, spD f⟩ :: List.replicate 999 none := by
  have ha : poolRun x₀ f 0 5 initPool =
      poolRun x₀ f 4 1 (poolRun x₀ f 0 4 initPool) := poolRun_add x₀ f 4 1 0 initPool
  rw [ha, poolRun_E4 x₀ f h1 h2,
    poolRun_single_step x₀ f 4 (spX x₀ f + spD f * 4) (spX x₀ f + spD f * 5)
      (by norm_num) (by ring)
      (sp_bounds x₀ f h1 h2 5 (by norm_num) (by norm_num)).1
      (sp_bounds x₀ f h1 h2 5 (by norm_num) (by norm_num)).2]

theorem poolRun_E6 (x₀ : ℚ) (f : Bool) (h1 : -900 ≤ x₀) (h2 : x₀ ≤ 900) :
    poolRun x₀ f 0 6 initPool =
      some ⟨spX x₀ f + spD f * 6, 80, spD f⟩ :: List.replicate 999 none := by
  have ha : poolRun x₀ f 0 6 initPool =
      poolRun x₀ f 5 1 (poolRun x₀ f 0 5 initPool) := poolRun_add x₀ f 5 1 0 initPool
  rw [ha, poolRun_E5 x₀ f h1 h2,
    poolRun_single_step x₀ f 5 (spX x₀ f + spD f * 5) (spX x₀ f + spD f * 6)
      (by norm_num) (by ring)
      (sp_bounds x₀ f h1 h2 6 (by norm_num) (by norm_num)).1
      (sp_bounds x₀ f h1 h2 6 (by norm_num) (by norm_num)).2]

theorem poolRun_E7 (x₀ : ℚ) (f : Bool) (h1 : -900 ≤ x₀) (h2 : x₀ ≤ 900) :
    poolRun x₀ f 0 7 initPool =
      some ⟨spX x₀ f + spD f * 7, 80, spD f⟩ ::
        some ⟨spX x₀ f + spD f * 1, 80, spD f⟩ :: List.replicate 998 none := by
  have ha : poolRun x₀ f 0 7 initPool =
      poolRun x₀ f 6 1 (poolRun x₀ f 0 6 initPool) := poolRun_add x₀ f 6 1 0 initPool
  rw [ha, poolRun_E6 x₀ f h1 h2,
    poolRun_spawn_step x₀ f 6 (spX x₀ f + spD f * 6) (spX x₀ f + spD f * 7)
      (spX x₀ f + spD f * 1) (by norm_num) (by ring)
      (sp_bounds x₀ f h1 h2 7 (by norm_num) (by norm_num)).1
      (sp_bounds x₀ f h1 h2 7 (by norm_num) (by norm_num)).2
      (by ring)
      (sp_bounds x₀ f h1 h2 1 (by norm_num) (by norm_num)).1
      (sp_bounds x₀ f h1 h2 1 (by norm_num) (by norm_num)).2]

theorem poolRun_E8 (x₀ : ℚ) (f : Bool) (h1 : -900 ≤ x₀) (h2 : x₀ ≤ 900) :
    poolRun x₀ f 0 8 initPool =
      some ⟨spX x₀ f + spD f * 8, 80, spD f⟩ ::
        some ⟨spX x₀ f + spD f * 2, 80, spD f⟩ :: List.replicate 998 none := by
  have ha : poolRun x₀ f 0 8 initPool =
      poolRun x₀ f 7 1 (poolRun x₀ f 0 7 initPool) := poolRun_add x₀ f 7 1 0 initPool
  rw [ha, poolRun_E7 x₀ f h1 h2,
    poolRun_pair_step x₀ f 7 (spX x₀ f + spD f * 7) (spX x₀ f + spD f * 1)
      (spX x₀ f + spD f * 8) (spX x₀ f + spD f * 2) (by norm_num) (by ring)
      (sp_bounds x₀ f h1 h2 8 (by norm_num) (by norm_num)).1
      (sp_bounds x₀ f h1 h2 8 (by norm_num) (by norm_num)).2
      (by ring)
      (sp_bounds x₀ f h1 h2 2 (by norm_num) (by norm_num)).1
      (sp_bounds x₀ f h1 h2 2 (by norm_num) (by norm_num)).2]

theorem poolRun_E9 (x₀ : ℚ) (f : Bool) (h1 : -900 ≤ x₀) (h2 : x₀ ≤ 900) :
    poolRun x₀ f 0 9 initPool =
      some ⟨spX x₀ f + spD f * 9, 80, spD f⟩ ::
        some ⟨spX x₀ f + spD f * 3, 80, spD f⟩ :: List.replicate 998 none := by
  have ha : poolRun x₀ f 0 9 initPool =
      poolRun x₀ f 8 1 (poolRun x₀ f 0 8 initPool) := poolRun_add x₀ f 8 1 0 initPool
  rw [ha, poolRun_E8 x₀ f h1 h2,
    poolRun_pair_step x₀ f 8 (spX x₀ f + spD f * 8) (spX x₀ f + spD f * 2)
      (spX x₀ f + spD f * 9) (spX x₀ f + spD f * 3) (by norm_num) (by ring)
      (sp_bounds x₀ f h1 h2 9 (by norm_num) (by norm_num)).1
      (sp_bounds x₀ f h1 h2 9 (by norm_num) (by norm_num)).2
      (by ring)
      (sp_bounds x₀ f h1 h2 3 (by norm_num) (by norm_num)).1
      (sp_bounds x₀ f h1 h2 3 (by norm_num) (by norm_num)).2]

theorem poolRun_E10 (x₀ : ℚ) (f : Bool) (h1 : -900 ≤ x₀) (h2 : x₀ ≤ 900) :
    poolRun x₀ f 0 10 initPool =
      some ⟨spX x₀ f + spD f * 10, 80, spD f⟩ ::
        some ⟨spX x₀ f + spD f * 4, 80, spD f⟩ :: List.replicate 998 none := by
  have ha : poolRun x₀ f 0 10 initPool =
      poolRun x₀ f 9 1 (poolRun x₀ f 0 9 initPool) := poolRun_add x₀ f 9 1 0 initPool
  rw [ha, poolRun_E9 x₀ f h1 h2,
    poolRun_pair_step x₀ f 9 (spX x₀ f + spD f * 9) (spX x₀ f + spD f * 3)
      (spX x₀ f + spD f * 10) (spX x₀ f + spD f * 4) (by norm_num) (by ring)
      (sp_bounds x₀ f h1 h2 10 (by norm_num) (by norm_num)).1
      (sp_bounds x₀ f h1 h2 10 (by norm_num) (by norm_num)).2
      (by ring)
      (sp_bounds x₀ f h1 h2 4 (by norm_num) (by norm_num)).1
      (sp_bounds x₀ f h1 h2 4 (by norm_num) (by norm_num)).2]

theorem poolRun_E11 (x₀ : ℚ) (f : Bool) (h1 : -900 ≤ x₀) (h2 : x₀ ≤ 900) :
    poolRun x₀ f 0 11 initPool =
      some ⟨spX x₀ f + spD f * 11, 80, spD f⟩ ::
        some ⟨spX x₀ f + spD f * 5, 80, spD f⟩ :: List.replicate 998 none := by
  have ha : poolRun x₀ f 0 11 initPool =
      poolRun x₀ f 10 1 (poolRun x₀ f 0 10 initPool) := poolRun_add x₀ f 10 1 0 initPool
  rw [ha, poolRun_E10 x₀ f h1 h2,
    poolRun_pair_step x₀ f 10 (spX x₀ f + spD f * 10) (spX x₀ f + spD f * 4)
      (spX x₀ f + spD f * 11) (spX x₀ f + spD f * 5) (by norm_num) (by ring)
      (sp_bounds x₀ f h1 h2 11 (by norm_num) (by norm_num)).1
      (sp_bounds x₀ f h1 h2 11 (by norm_num) (by norm_num)).2
      (by ring)
      (sp_bounds x₀ f h1 h2 5 (by norm_num) (by norm_num)).1
      (sp_bounds x₀ f h1 h2 5 (by norm_num) (by norm_num)).2]

theorem poolRun_E12 (x₀ : ℚ) (f : Bool) (h1 : -900 ≤ x₀) (h2 : x₀ ≤ 900) :
    poolRun x₀ f 0 12 initPool =
      some ⟨spX x₀ f + spD f * 12, 80, spD f⟩ ::
        some ⟨spX x₀ f + spD f * 6, 80, spD f⟩ :: List.replicate 998 none := by
  have ha : poolRun x₀ f 0 12 initPool =
      poolRun x₀ f 11 1 (poolRun x₀ f 0 11 initPool) := poolRun_add x₀ f 11 1 0 initPool
  rw [ha, poolRun_E11 x₀ f h1 h2,
    poolRun_pair_step x₀ f 11 (spX x₀ f + spD f * 11) (spX x₀ f + spD f * 5)
      (spX x₀ f + spD f * 12) (spX x₀ f + spD f * 6) (by norm_num) (by ring)
      (sp_bounds x₀ f h1 h2 12 (by norm_num) (by norm_num)).1
      (sp_bounds x₀ f h1 h2 12 (by norm_num) (by norm_num)).2
      (by ring)
      (sp_bounds x₀ f h1 h2 6 (by norm_num) (by norm_num)).1
      (sp_bounds x₀ f h1 h2 6 (by norm_num) (by norm_num)).2]

theorem liveCount_replicate_none (n : ℕ) :
    liveCount (List.replicate n (none : Option Bullet)) = 0 := by
  induction n with
  | zero => rfl
  | succ n ih =>
    unfold liveCount at *
    rw [List.replicate_succ, List.countP_cons]
    simp [ih]

theorem liveCount_two_bullets (b1 b2 : Bullet) (n : ℕ) :
    liveCount (some b1 :: some b2 :: List.replicate n none) = 2 := by
  have h := liveCount_replicate_none n
  unfold liveCount at *
  rw [List.countP_cons, List.countP_cons, h]
  rfl

/-- C3.  A player standing on the ground (stationary: walking false, no
movement key held) who holds the fire key for 12 consecutive ticks
spawns exactly 2 projectiles, one on each of the two ticks of the
window where globalTime is divisible by 6 (k is the offset of the first
such tick, the other is k + 6): after the window the pool holds exactly
two live projectiles, in slots 0 and 1, each spawned at the facing
dependent offset (+35, +20) with dx = 3 when facing right (f = false)
or (+5, +20) with dx = -3 when facing left, from the player's position
(x₀, 60) -- the spawn height 60 + 20 = 80 is unchanged and the spawn
abscissa spX has been advanced by dx once per tick since the spawn
tick, 12 - k times for the first projectile and 6 - k for the second.
The position bound on x₀ keeps both projectiles inside the travel
bound for the whole window, and the pool starts empty as at program
start. -/
theorem c3_fire_held_twelve (t₀ : ℕ) (x₀ : ℚ) (c₀ : ℕ) (f v a : Bool) (e : ManSt)
    (h1 : -900 ≤ x₀) (h2 : x₀ ≤ 900) :
    ∃ k : ℕ, k < 6 ∧ (t₀ + k) % 6 = 0 ∧
      ((tick keysFire)^[12]
          ⟨⟨x₀, 60, 0, c₀, false, f, false, v, a⟩, e, initPool, t₀⟩).pool =
        some ⟨spX x₀ f + spD f * ((12 - k : ℕ) : ℚ), 80, spD f⟩ ::
          some ⟨spX x₀ f + spD f * ((6 - k : ℕ) : ℚ), 80, spD f⟩ ::
          List.replicate 998 none ∧
      liveCount ((tick keysFire)^[12]
          ⟨⟨x₀, 60, 0, c₀, false, f, false, v, a⟩, e, initPool, t₀⟩).pool = 2 := by
  have hrun : ((tick keysFire)^[12]
      ⟨⟨x₀, 60, 0, c₀, false, f, false, v, a⟩, e, initPool, t₀⟩).pool =
      poolRun x₀ f t₀ 12 initPool :=
    fire_run x₀ f 12 ⟨⟨x₀, 60, 0, c₀, false, f, false, v, a⟩, e, initPool, t₀⟩
      rfl rfl rfl rfl (Or.inl rfl)
  have hmod : poolRun x₀ f t₀ 12 initPool = poolRun x₀ f (t₀ % 6) 12 initPool :=
    poolRun_mod6 x₀ f 12 t₀ (t₀ % 6) initPool (by omega)
  have h6 : t₀ % 6 = 0 ∨ t₀ % 6 = 1 ∨ t₀ % 6 = 2 ∨ t₀ % 6 = 3 ∨ t₀ % 6 = 4 ∨
      t₀ % 6 = 5 := by omega
  rcases h6 with hr | hr | hr | hr | hr | hr
  · refine ⟨0, by norm_num, by omega, ?_, ?_⟩
    · rw [hrun, hmod, hr, poolRun_E12 x₀ f h1 h2]
      norm_num
    · rw [hrun, hmod, hr, poolRun_E12 x₀ f h1 h2]
      exact liveCount_two_bullets _ _ _
  · have ha : poolRun x₀ f 1 12 initPool =
        poolRun x₀ f 6 7 (poolRun x₀ f 1 5 initPool) := poolRun_add x₀ f 5 7 1 initPool
    have hcomp : poolRun x₀ f 1 12 initPool =
        some ⟨spX x₀ f + spD f * 7, 80, spD f⟩ ::
          some ⟨spX x₀ f + spD f * 1, 80, spD f⟩ :: List.replicate 998 none := by
      rw [ha, poolRun_idle x₀ f 5 1 (by decide),
        poolRun_mod6 x₀ f 7 6 0 initPool (by norm_num), poolRun_E7 x₀ f h1 h2]
    refine ⟨5, by norm_num, by omega, ?_, ?_⟩
    · rw [hrun, hmod, hr, hcomp]
      norm_num
    · rw [hrun, hmod, hr, hcomp]
      exact liveCount_two_bullets _ _ _
  · have ha : poolRun x₀ f 2 12 initPool =
        poolRun x₀ f 6 8 (poolRun x₀ f 2 4 initPool) := poolRun_add x₀ f 4 8 2 initPool
    have hcomp : poolRun x₀ f 2 12 initPool =
        some ⟨spX x₀ f + spD f * 8, 80, spD f⟩ ::
          some ⟨spX x₀ f + spD f * 2, 80, spD f⟩ :: List.replicate 998 none := by
      rw [ha, poolRun_idle x₀ f 4 2 (by decide),
        poolRun_mod6 x₀ f 8 6 0 initPool (by norm_num), poolRun_E8 x₀ f h1 h2]
    refine ⟨4, by norm_num, by omega, ?_, ?_⟩
    · rw [hrun, hmod, hr, hcomp]
      norm_num
    · rw [hrun, hmod, hr, hcomp]
      exact liveCount_two_bullets _ _ _
  · have ha : poolRun x₀ f 3 12 initPool =
        poolRun x₀ f 6 9 (poolRun x₀ f 3 3 initPool) := poolRun_add x₀ f 3 9 3 initPool
    have hcomp : poolRun x₀ f 3 12 initPool =
        some ⟨spX x₀ f + spD f * 9, 80, spD f⟩ ::
          some ⟨spX x₀ f + spD f * 3, 80, spD f⟩ :: List.replicate 998 none := by
      rw [ha, poolRun_idle x₀ f 3 3 (by decide),
        poolRun_mod6 x₀ f 9 6 0 initPool (by norm_num), poolRun_E9 x₀ f h1 h2]
    refine ⟨3, by norm_num, by omega, ?_, ?_⟩
    · rw [hrun, hmod, hr, hcomp]
      norm_num
    · rw [hrun, hmod, hr, hcomp]
      exact liveCount_two_bullets _ _ _
  · have ha : poolRun x₀ f 4 12 initPool =
        poolRun x₀ f 6 10 (poolRun x₀ f 4 2 initPool) := poolRun_add x₀ f 2 10 4 initPool
    have hcomp : poolRun x₀ f 4 12 initPool =
        some ⟨spX x₀ f + spD f * 10, 80, spD f⟩ ::
          some ⟨spX x₀ f + spD f * 4, 80, spD f⟩ :: List.replicate 998 none := by
      rw [ha, poolRun_idle x₀ f 2 4 (by decide),
        poolRun_mod6 x₀ f 10 6 0 initPool (by norm_num), poolRun_E10 x₀ f h1 h2]
    refine ⟨2, by norm_num, by omega, ?_, ?_⟩
    · rw [hrun, hmod, hr, hcomp]
      norm_num
    · rw [hrun, hmod, hr, hcomp]
      exact liveCount_two_bullets _ _ _
  · have ha : poolRun x₀ f 5 12 initPool =
        poolRun x₀ f 6 11 (poolRun x₀ f 5 1 initPool) := poolRun_add x₀ f 1 11 5 initPool
    have hcomp : poolRun x₀ f 5 12 initPool =
        some ⟨spX x₀ f + spD f * 11, 80, spD f⟩ ::
          some ⟨spX x₀ f + spD f * 5, 80, spD f⟩ :: List.replicate 998 none := by
      rw [ha, poolRun_idle x₀ f 1 5 (by decide),
        poolRun_mod6 x₀ f 11 6 0 initPool (by norm_num), poolRun_E11 x₀ f h1 h2]
    refine ⟨1, by norm_num, by omega, ?_, ?_⟩
    · rw [hrun, hmod, hr, hcomp]
      norm_num
    · rw [hrun, hmod, hr, hcomp]
      exact liveCount_two_bullets _ _ _

/-- Witness for C3: the concrete game start position x₀ = 50, facing
right, window starting at globalTime 0. -/
theorem c3_fire_held_twelve_witness :
    (-900 ≤ (50 : ℚ) ∧ (50 : ℚ) ≤ 900) ∧
      ∃ k : ℕ, k < 6 ∧ (0 + k) % 6 = 0 ∧
        ((tick keysFire)^[12]
            ⟨⟨50, 60, 0, 4, false, false, false, true, true⟩, enemy0, initPool, 0⟩).pool =
          some ⟨spX 50 false + spD false * ((12 - k : ℕ) : ℚ), 80, spD false⟩ ::
            some ⟨spX 50 false + spD false * ((6 - k : ℕ) : ℚ), 80, spD false⟩ ::
            List.replicate 998 none ∧
        liveCount ((tick keysFire)^[12]
            ⟨⟨50, 60, 0, 4, false, false, false, true, true⟩, enemy0, initPool, 0⟩).pool = 2 :=
  ⟨⟨by norm_num, by norm_num⟩,
   c3_fire_held_twelve 0 50 4 false true true enemy0 (by norm_num) (by norm_num)⟩

end Controc
